import Mathlib

/-!
Verification of the Go-SDL2 binding (packages `sdl` and `mixer`).

The binding is cgo glue: every exported operation performs some locking and
then calls one (occasionally two) native SDL / SDL_mixer functions.  We embed
each operation as a pure Lean function that returns its result together with a
trace of observable events: acquiring/releasing the global mutex, acquiring/
releasing a per-surface lock, entering a native function, and mutating the
process environment.  Native return values are inputs (oracle parameters),
since the native library itself is out of scope.  Arguments are passed to the
native library verbatim by cgo casts and are not recorded in the trace.
-/

namespace GoSDL

/-- Native functions of SDL2 / SDL2_image / SDL2_mixer entered by the binding.
One constructor per C-level API call appearing in the source.  `mixLoadWAV`
stands for the Mix_LoadWAV macro, i.e. Mix_LoadWAV_RW applied to
SDL_RWFromFile, exactly as expanded in mixer.LoadWAV. -/
inductive CFn where
  | sdlInit | sdlQuit | sdlInitSubSystem | sdlQuitSubSystem | sdlWasInit
  | sdlGetNumDisplayModes | sdlGetError | sdlClearError
  | sdlCreateRenderer | sdlRenderClear | sdlRenderCopy | sdlRenderPresent
  | sdlSetRenderDrawColor | sdlRenderFillRect | sdlDestroyRenderer
  | sdlCreateTextureFromSurface | sdlDestroyTexture
  | sdlCreateWindow | sdlCreateWindowAndRenderer
  | sdlGetWindowTitle | sdlSetWindowTitle | sdlSetWindowIcon | sdlDestroyWindow
  | sdlGLSwapWindow | sdlGLSetAttribute
  | sdlFreeSurface | sdlLockSurface | sdlUnlockSurface | sdlUpperBlit
  | sdlFillRect | sdlSetColorKey | sdlGetClipRect | sdlSetClipRect
  | sdlMapRGBA | sdlGetRGBA
  | imgLoad | sdlCreateRGBSurface | sdlCreateRGBSurfaceFrom
  | sdlGetKeyName | sdlPollEvent
  | sdlGetMouseState | sdlGetRelativeMouseState | sdlShowCursor
  | sdlNumJoysticks | sdlJoystickOpen | sdlJoystickUpdate
  | sdlJoystickEventState | sdlJoystickClose
  | sdlJoystickNumAxes | sdlJoystickNumButtons | sdlJoystickNumBalls
  | sdlJoystickNumHats | sdlJoystickGetHat | sdlJoystickGetButton
  | sdlJoystickGetBall | sdlJoystickGetAxis
  | sdlGetTicks
  | mixLoadWAV | mixFreeChunk | mixVolumeChunk | mixPlayChannelTimed
  | mixFadeInChannelTimed | mixGetChunk
deriving DecidableEq

/-- Observable events of one binding operation, in program order.
`lockG`/`unlockG` are GlobalMutex.Lock/Unlock; `wlockS`/`rlockS` are the
per-surface write/read lock of the surface with identity `sid`; `native f`
is entry into the native function `f`; `setenvX11`/`setenvEmpty` are the
os.Setenv calls on SDL_VIDEODRIVER performed by Init/InitSubSystem. -/
inductive Ev where
  | lockG
  | unlockG
  | wlockS (sid : Nat)
  | wunlockS (sid : Nat)
  | rlockS (sid : Nat)
  | runlockS (sid : Nat)
  | native (f : CFn)
  | setenvX11
  | setenvEmpty
deriving DecidableEq

/-- Number of native-library entries in a trace. -/
def countNative (tr : List Ev) : Nat :=
  tr.countP fun e => match e with
    | Ev.native _ => true
    | _ => false

/-- Number of environment mutations in a trace. -/
def countSetenv (tr : List Ev) : Nat :=
  tr.countP fun e => match e with
    | Ev.setenvX11 => true
    | Ev.setenvEmpty => true
    | _ => false

/-- Auxiliary scan: `held` is whether GlobalMutex is currently held; the
result is true iff every native entry in the rest of the trace happens while
it is held. -/
def guardedFrom : List Ev → Bool → Bool
  | [], _ => true
  | Ev.lockG :: r, _ => guardedFrom r true
  | Ev.unlockG :: r, _ => guardedFrom r false
  | Ev.native _ :: r, held => held && guardedFrom r held
  | _ :: r, held => guardedFrom r held

/-- True iff every native-library entry in the trace occurs while GlobalMutex
is held (starting from the unlocked state). -/
def nativeCallsGuarded (tr : List Ev) : Bool := guardedFrom tr false

/-- True iff the trace never touches GlobalMutex. -/
def usesGlobal (tr : List Ev) : Bool :=
  tr.any fun e => match e with
    | Ev.lockG => true
    | Ev.unlockG => true
    | _ => false

/-- True iff every lock event in the trace is a per-surface lock event of the
single surface `sid` (in particular the trace never touches GlobalMutex). -/
def locksOnly (sid : Nat) (tr : List Ev) : Bool :=
  tr.all fun e => match e with
    | Ev.wlockS i => i == sid
    | Ev.wunlockS i => i == sid
    | Ev.rlockS i => i == sid
    | Ev.runlockS i => i == sid
    | Ev.lockG => false
    | Ev.unlockG => false
    | _ => true

/-- Value of the SDL_VIDEODRIVER environment variable as observed by Init:
`empty` is the empty string (or the variable being unset, which os.Getenv
reports identically), `x11` the value written by the darwin workaround,
`other` any other non-empty value. -/
inductive DriverVal where
  | empty
  | x11
  | other
deriving DecidableEq

/-- Ambient process state read by Init/InitSubSystem: whether runtime.GOOS is
darwin, and the current SDL_VIDEODRIVER value. -/
structure SysEnv where
  goosDarwin : Bool
  videoDriver : DriverVal
deriving DecidableEq

/-- SDL_INIT_VIDEO, the value 0x00000020 from the SDL2 headers. -/
def INIT_VIDEO : Nat := 32

/-- sdl.Init.  `st1` is the status returned by the first native SDL_Init call
and `st2` the status of the retry (used only on the darwin workaround path).
Returns (status returned to the caller, final environment, trace). -/
def Init (flags : Nat) (env : SysEnv) (st1 st2 : Int) : Int × SysEnv × List Ev :=
  if st1 ≠ 0 ∧ env.goosDarwin = true ∧ Nat.land flags INIT_VIDEO ≠ 0 then
    if env.videoDriver = DriverVal.empty then
      if st2 ≠ 0 then
        (st2, { env with videoDriver := DriverVal.empty },
          [Ev.lockG, Ev.native CFn.sdlInit, Ev.setenvX11, Ev.native CFn.sdlInit,
           Ev.setenvEmpty, Ev.unlockG])
      else
        (st2, { env with videoDriver := DriverVal.x11 },
          [Ev.lockG, Ev.native CFn.sdlInit, Ev.setenvX11, Ev.native CFn.sdlInit,
           Ev.unlockG])
    else
      (st1, env, [Ev.lockG, Ev.native CFn.sdlInit, Ev.unlockG])
  else
    (st1, env, [Ev.lockG, Ev.native CFn.sdlInit, Ev.unlockG])

/-- sdl.InitSubSystem: same shape as Init, around SDL_InitSubSystem. -/
def InitSubSystem (flags : Nat) (env : SysEnv) (st1 st2 : Int) :
    Int × SysEnv × List Ev :=
  if st1 ≠ 0 ∧ env.goosDarwin = true ∧ Nat.land flags INIT_VIDEO ≠ 0 then
    if env.videoDriver = DriverVal.empty then
      if st2 ≠ 0 then
        (st2, { env with videoDriver := DriverVal.empty },
          [Ev.lockG, Ev.native CFn.sdlInitSubSystem, Ev.setenvX11,
           Ev.native CFn.sdlInitSubSystem, Ev.setenvEmpty, Ev.unlockG])
      else
        (st2, { env with videoDriver := DriverVal.x11 },
          [Ev.lockG, Ev.native CFn.sdlInitSubSystem, Ev.setenvX11,
           Ev.native CFn.sdlInitSubSystem, Ev.unlockG])
    else
      (st1, env, [Ev.lockG, Ev.native CFn.sdlInitSubSystem, Ev.unlockG])
  else
    (st1, env, [Ev.lockG, Ev.native CFn.sdlInitSubSystem, Ev.unlockG])

/-- Kind of the Go value passed as the `pixels` argument of
CreateRGBSurfaceFrom, as reported by reflect.ValueOf(pixels).Kind().
`ptr`, `uptr` (reflect.UnsafePointer) and `slice` are the kinds accepted by
the switch; the remaining constructors are representative rejected kinds. -/
inductive GoKind where
  | ptr
  | uptr
  | slice
  | intKind
  | boolKind
  | structKind
  | chanKind
deriving DecidableEq

/-- A Go interface{} value: its reflect kind and, for pointer-like kinds, the
address reported by Value.Pointer(). -/
structure GoValue where
  kind : GoKind
  addr : Nat
deriving DecidableEq

/-- Contents of a native SDL_Surface, read by Surface.reload: the fields the
binding copies into the Go struct.  Pointers are modelled as `Option Nat`
(`none` = NULL, `some a` = address `a`). -/
structure CSurfaceData where
  flags : Nat
  format : Option Nat
  w : Int
  h : Int
  pitch : Nat
  pixels : Option Nat
deriving DecidableEq

/-- The Go struct sdl.Surface.  `cSurface` holds the address of the native
surface (`none` = nil pointer); the exported fields mirror the source. -/
structure Surface where
  cSurface : Option Nat
  Flags : Nat
  Format : Option Nat
  W : Int
  H : Int
  Pitch : Nat
  Pixels : Option Nat
  gcPixels : Option GoValue
deriving DecidableEq

/-- Surface.reload: pull the exported fields from the native surface data. -/
def Surface.reload (s : Surface) (d : CSurfaceData) : Surface :=
  { s with Flags := d.flags, Format := d.format, W := d.w, H := d.h,
           Pitch := d.pitch, Pixels := d.pixels }

/-- Surface.SetCSurface: store the native pointer and reload the fields.  A
native surface pointer is modelled as its address together with the pointed-to
data. -/
def Surface.SetCSurface (s : Surface) (c : Nat × CSurfaceData) : Surface :=
  ({ s with cSurface := some c.1 }).reload c.2

/-- The zero value of the Go struct Surface (`var surface Surface`). -/
def emptySurface : Surface :=
  { cSurface := none, Flags := 0, Format := none, W := 0, H := 0, Pitch := 0,
    Pixels := none, gcPixels := none }

/-- wrapSurface: nil in, nil out; otherwise a fresh Surface around exactly the
given native pointer, fields loaded via SetCSurface. -/
def wrapSurface (c : Option (Nat × CSurfaceData)) : Option Surface :=
  match c with
  | some cs => some (emptySurface.SetCSurface cs)
  | none => none

/-- Surface.destroy: clear the native handle, Format, Pixels and gcPixels. -/
def Surface.destroy (s : Surface) : Surface :=
  { s with cSurface := none, Format := none, Pixels := none, gcPixels := none }

/-- The Go struct sdl.Window. -/
structure Window where
  cWindow : Option Nat
  Flags : Nat
  X : Int
  Y : Int
  W : Int
  H : Int
deriving DecidableEq

/-- Window.reload: the body is commented out in the source (TODO), so it is
the identity. -/
def Window.reload (w : Window) : Window := w

/-- Window.SetCWindow: store the native pointer and reload. -/
def Window.SetCWindow (w : Window) (c : Nat) : Window :=
  ({ w with cWindow := some c }).reload

/-- The zero value of the Go struct Window. -/
def emptyWindow : Window :=
  { cWindow := none, Flags := 0, X := 0, Y := 0, W := 0, H := 0 }

/-- wrapWindow: nil in, nil out; otherwise a fresh Window around the handle. -/
def wrapWindow (c : Option Nat) : Option Window :=
  match c with
  | some cw => some (emptyWindow.SetCWindow cw)
  | none => none

/-- The Go struct sdl.Renderer. -/
structure Renderer where
  cRenderer : Option Nat
deriving DecidableEq

/-- wrapRenderer: nil in, nil out; otherwise a Renderer around the handle. -/
def wrapRenderer (c : Option Nat) : Option Renderer :=
  match c with
  | some cr => some { cRenderer := some cr }
  | none => none

/-- The Go struct sdl.Texture. -/
structure Texture where
  cTexture : Option Nat
deriving DecidableEq

/-- wrapTexture: nil in, nil out; otherwise a Texture around the handle. -/
def wrapTexture (c : Option Nat) : Option Texture :=
  match c with
  | some ct => some { cTexture := some ct }
  | none => none

/-- The Go struct sdl.Joystick. -/
structure Joystick where
  cJoystick : Option Nat
deriving DecidableEq

/-- wrapJoystick: nil in, nil out; otherwise a Joystick around the handle. -/
def wrapJoystick (c : Option Nat) : Option Joystick :=
  match c with
  | some cj => some { cJoystick := some cj }
  | none => none

/-- The Go struct mixer.Chunk. -/
structure Chunk where
  cchunk : Option Nat
deriving DecidableEq

/-- Go runtime panics that binding code can hit: dereferencing a nil pointer,
or the explicit panic in CreateRGBSurfaceFrom's kind switch. -/
inductive GoPanic where
  | nilDeref
  | badKind
deriving DecidableEq

/-- Trace of a call that takes GlobalMutex, enters one native function, and
releases the mutex — the shape shared by most operations of package sdl. -/
def lockedTrace (f : CFn) : List Ev := [Ev.lockG, Ev.native f, Ev.unlockG]

/-- sdl.CreateRenderer.  `n` is the native SDL_CreateRenderer result. -/
def CreateRenderer (n : Option Nat) : Option Renderer × List Ev :=
  (wrapRenderer n, lockedTrace CFn.sdlCreateRenderer)

/-- sdl.Renderer.Clear (the wrapper discards the native status). -/
def Renderer.Clear : List Ev := lockedTrace CFn.sdlRenderClear

/-- sdl.Renderer.Copy. -/
def Renderer.Copy : List Ev := lockedTrace CFn.sdlRenderCopy

/-- sdl.Renderer.Present. -/
def Renderer.Present : List Ev := lockedTrace CFn.sdlRenderPresent

/-- sdl.Renderer.SetDrawColor. -/
def Renderer.SetDrawColor : List Ev := lockedTrace CFn.sdlSetRenderDrawColor

/-- sdl.Renderer.FillRect (the fmt.Printf debug line writes to stdout only
and is not a native-library entry). -/
def Renderer.FillRect : List Ev := lockedTrace CFn.sdlRenderFillRect

/-- sdl.Renderer.Destroy. -/
def Renderer.Destroy : List Ev := lockedTrace CFn.sdlDestroyRenderer

/-- sdl.CreateTextureFromSurface.  `n` is the native result. -/
def CreateTextureFromSurface (n : Option Nat) : Option Texture × List Ev :=
  (wrapTexture n, lockedTrace CFn.sdlCreateTextureFromSurface)

/-- sdl.Texture.Destroy. -/
def Texture.Destroy : List Ev := lockedTrace CFn.sdlDestroyTexture

/-- sdl.QuitSubSystem. -/
def QuitSubSystem : List Ev := lockedTrace CFn.sdlQuitSubSystem

/-- sdl.WasInit: forwards the native status. -/
def WasInit (n : Int) : Int × List Ev := (n, lockedTrace CFn.sdlWasInit)

/-- sdl.NumDisplayModes: forwards the native count. -/
def NumDisplayModes (n : Int) : Int × List Ev :=
  (n, lockedTrace CFn.sdlGetNumDisplayModes)

/-- sdl.GetError: forwards the native error string (modelled as an opaque
identifier) unchanged. -/
def GetError (e : Nat) : Nat × List Ev := (e, lockedTrace CFn.sdlGetError)

/-- sdl.ClearError. -/
def ClearError : List Ev := lockedTrace CFn.sdlClearError

/-- sdl.CreateWindow.  `n` is the native SDL_CreateWindow result. -/
def CreateWindow (n : Option Nat) : Option Window × List Ev :=
  (wrapWindow n, lockedTrace CFn.sdlCreateWindow)

/-- Evaluation of `&win.cWindow` for a possibly nil `win`: taking the address
of a field through a nil pointer is a Go runtime panic. -/
def fieldAddrCWindow (w : Option Window) : Except GoPanic Nat :=
  match w with
  | none => Except.error GoPanic.nilDeref
  | some _ => Except.ok 0

/-- Evaluation of `&rend.cRenderer` for a possibly nil `rend`. -/
def fieldAddrCRenderer (r : Option Renderer) : Except GoPanic Nat :=
  match r with
  | none => Except.error GoPanic.nilDeref
  | some _ => Except.ok 0

/-- sdl.CreateWindowAndRenderer: declares nil `win` and `rend`, locks the
global mutex, then evaluates `&win.cWindow` and `&rend.cRenderer` as
arguments of the native call; the deferred unlock runs during the panic. -/
def CreateWindowAndRenderer (h w : Int) (flags : Nat) :
    Except GoPanic (Option Window × Option Renderer) × List Ev :=
  let win : Option Window := none
  let rend : Option Renderer := none
  match fieldAddrCWindow win with
  | Except.error p => (Except.error p, [Ev.lockG, Ev.unlockG])
  | Except.ok _ =>
    match fieldAddrCRenderer rend with
    | Except.error p => (Except.error p, [Ev.lockG, Ev.unlockG])
    | Except.ok _ =>
      (Except.ok (win, rend), lockedTrace CFn.sdlCreateWindowAndRenderer)

/-- sdl.Window.GetTitle: forwards the native title (opaque identifier). -/
def Window.GetTitle (t : Nat) : Nat × List Ev :=
  (t, lockedTrace CFn.sdlGetWindowTitle)

/-- sdl.Window.SetTitle (C.CString/C.free are libc, not SDL entries). -/
def Window.SetTitle : List Ev := lockedTrace CFn.sdlSetWindowTitle

/-- sdl.Window.SetIcon. -/
def Window.SetIcon : List Ev := lockedTrace CFn.sdlSetWindowIcon

/-- sdl.Window.Destroy. -/
def Window.Destroy : List Ev := lockedTrace CFn.sdlDestroyWindow

/-- sdl.Window.GL_SwapWindow. -/
def Window.GL_SwapWindow : List Ev := lockedTrace CFn.sdlGLSwapWindow

/-- sdl.GL_SetAttribute: forwards the native status. -/
def GL_SetAttribute (n : Int) : Int × List Ev :=
  (n, lockedTrace CFn.sdlGLSetAttribute)

/-- sdl.Surface.Lock: takes only this surface's own mutex. -/
def Surface.Lock (sid : Nat) (n : Int) : Int × List Ev :=
  (n, [Ev.wlockS sid, Ev.native CFn.sdlLockSurface, Ev.wunlockS sid])

/-- sdl.Surface.Unlock: takes only this surface's own mutex. -/
def Surface.Unlock (sid : Nat) : List Ev :=
  [Ev.wlockS sid, Ev.native CFn.sdlUnlockSurface, Ev.wunlockS sid]

/-- sdl.Surface.Blit on destination `dst` from source `src` (surfaces are
identified by their address `sid`); `cvs` is the package-level
currentVideoSurface pointer and `n` the native SDL_UpperBlit status.
GlobalMutex is released before the blit unless `src` or `dst` is the current
video surface, in which case it stays held until after the blit. -/
def Surface.Blit (dst src : Nat) (cvs : Option Nat) (n : Int) : Int × List Ev :=
  if cvs ≠ some src ∧ cvs ≠ some dst then
    (n, [Ev.lockG, Ev.unlockG, Ev.rlockS src, Ev.wlockS dst,
         Ev.native CFn.sdlUpperBlit, Ev.wunlockS dst, Ev.runlockS src])
  else
    (n, [Ev.lockG, Ev.rlockS src, Ev.wlockS dst, Ev.native CFn.sdlUpperBlit,
         Ev.wunlockS dst, Ev.runlockS src, Ev.unlockG])

/-- sdl.BlitSurface: argument-order-swapped alias of Surface.Blit. -/
def BlitSurface (src dst : Nat) (cvs : Option Nat) (n : Int) : Int × List Ev :=
  Surface.Blit dst src cvs n

/-- sdl.Surface.FillRect: takes only this surface's own mutex; forwards the
native status. -/
def Surface.FillRect (sid : Nat) (n : Int) : Int × List Ev :=
  (n, [Ev.wlockS sid, Ev.native CFn.sdlFillRect, Ev.wunlockS sid])

/-- sdl.Surface.SetColorKey: per-surface mutex only; forwards the status. -/
def Surface.SetColorKey (sid : Nat) (n : Int) : Int × List Ev :=
  (n, [Ev.wlockS sid, Ev.native CFn.sdlSetColorKey, Ev.wunlockS sid])

/-- sdl.Surface.GetClipRect: per-surface read lock only. -/
def Surface.GetClipRect (sid : Nat) : List Ev :=
  [Ev.rlockS sid, Ev.native CFn.sdlGetClipRect, Ev.runlockS sid]

/-- sdl.Surface.SetClipRect: per-surface write lock only. -/
def Surface.SetClipRect (sid : Nat) : List Ev :=
  [Ev.wlockS sid, Ev.native CFn.sdlSetClipRect, Ev.wunlockS sid]

/-- sdl.MapRGBA: direct native call, no locking at all. -/
def MapRGBA (n : Nat) : Nat × List Ev := (n, [Ev.native CFn.sdlMapRGBA])

/-- sdl.GetRGBA: direct native call, no locking at all. -/
def GetRGBA : List Ev := [Ev.native CFn.sdlGetRGBA]

/-- sdl.Load (IMG_Load).  `n` is the native result. -/
def Load (n : Option (Nat × CSurfaceData)) : Option Surface × List Ev :=
  (wrapSurface n, lockedTrace CFn.imgLoad)

/-- sdl.CreateRGBSurface.  `n` is the native result. -/
def CreateRGBSurface (n : Option (Nat × CSurfaceData)) :
    Option Surface × List Ev :=
  (wrapSurface n, lockedTrace CFn.sdlCreateRGBSurface)

/-- sdl.CreateRGBSurfaceFrom.  The reflect switch runs before the lock is
taken: a pixels value of unsupported kind panics with an empty trace.  After
the native call, `s.gcPixels = pixels` dereferences the wrapper, which is nil
exactly when the native call returned NULL — a nil-pointer panic. -/
def CreateRGBSurfaceFrom (pixels : GoValue) (n : Option (Nat × CSurfaceData)) :
    Except GoPanic (Option Surface) × List Ev :=
  match pixels.kind with
  | GoKind.ptr | GoKind.uptr | GoKind.slice =>
    match wrapSurface n with
    | none =>
      (Except.error GoPanic.nilDeref, lockedTrace CFn.sdlCreateRGBSurfaceFrom)
    | some s0 =>
      (Except.ok (some { s0 with gcPixels := some pixels }),
       lockedTrace CFn.sdlCreateRGBSurfaceFrom)
  | _ => (Except.error GoPanic.badKind, [])

/-- sdl.GetKeyName: forwards the native name (opaque identifier). -/
def GetKeyName (n : Nat) : Nat × List Ev := (n, lockedTrace CFn.sdlGetKeyName)

/-- sdl.Event.poll: forwards whether SDL_PollEvent returned non-zero. -/
def Event.poll (n : Int) : Bool × List Ev :=
  (n != 0, lockedTrace CFn.sdlPollEvent)

/-- sdl.GetMouseState: forwards the native button state. -/
def GetMouseState (n : Nat) : Nat × List Ev :=
  (n, lockedTrace CFn.sdlGetMouseState)

/-- sdl.GetRelativeMouseState: forwards the native button state. -/
def GetRelativeMouseState (n : Nat) : Nat × List Ev :=
  (n, lockedTrace CFn.sdlGetRelativeMouseState)

/-- sdl.ShowCursor: forwards the native state. -/
def ShowCursor (n : Int) : Int × List Ev := (n, lockedTrace CFn.sdlShowCursor)

/-- sdl.NumJoysticks: forwards the native count. -/
def NumJoysticks (n : Int) : Int × List Ev :=
  (n, lockedTrace CFn.sdlNumJoysticks)

/-- sdl.JoystickOpen.  `n` is the native SDL_JoystickOpen result. -/
def JoystickOpen (n : Option Nat) : Option Joystick × List Ev :=
  (wrapJoystick n, lockedTrace CFn.sdlJoystickOpen)

/-- sdl.JoystickUpdate. -/
def JoystickUpdate : List Ev := lockedTrace CFn.sdlJoystickUpdate

/-- sdl.JoystickEventState: forwards the native result. -/
def JoystickEventState (n : Int) : Int × List Ev :=
  (n, lockedTrace CFn.sdlJoystickEventState)

/-- sdl.Joystick.Close. -/
def Joystick.Close : List Ev := lockedTrace CFn.sdlJoystickClose

/-- sdl.Joystick.NumAxes: direct native call, no locking at all. -/
def Joystick.NumAxes (n : Int) : Int × List Ev :=
  (n, [Ev.native CFn.sdlJoystickNumAxes])

/-- sdl.Joystick.NumButtons: direct native call, no locking at all. -/
def Joystick.NumButtons (n : Int) : Int × List Ev :=
  (n, [Ev.native CFn.sdlJoystickNumButtons])

/-- sdl.Joystick.NumBalls: direct native call, no locking at all. -/
def Joystick.NumBalls (n : Int) : Int × List Ev :=
  (n, [Ev.native CFn.sdlJoystickNumBalls])

/-- sdl.Joystick.NumHats: direct native call, no locking at all. -/
def Joystick.NumHats (n : Int) : Int × List Ev :=
  (n, [Ev.native CFn.sdlJoystickNumHats])

/-- sdl.Joystick.GetHat: direct native call, no locking at all. -/
def Joystick.GetHat (n : Nat) : Nat × List Ev :=
  (n, [Ev.native CFn.sdlJoystickGetHat])

/-- sdl.Joystick.GetButton: direct native call, no locking at all. -/
def Joystick.GetButton (n : Nat) : Nat × List Ev :=
  (n, [Ev.native CFn.sdlJoystickGetButton])

/-- sdl.Joystick.GetBall: direct native call, no locking at all. -/
def Joystick.GetBall (n : Int) : Int × List Ev :=
  (n, [Ev.native CFn.sdlJoystickGetBall])

/-- sdl.Joystick.GetAxis: direct native call, no locking at all. -/
def Joystick.GetAxis (n : Int) : Int × List Ev :=
  (n, [Ev.native CFn.sdlJoystickGetAxis])

/-- sdl.GetTicks: forwards the native tick count. -/
def GetTicks (n : Nat) : Nat × List Ev := (n, lockedTrace CFn.sdlGetTicks)

/-- sdl.Delay: time.Sleep only — no native entry, no locking. -/
def Delay : List Ev := []

/-- mixer.LoadWAV: Mix_LoadWAV (macro over Mix_LoadWAV_RW/SDL_RWFromFile),
with no locking at all; nil in, nil out, otherwise a Chunk around exactly the
native handle. -/
def LoadWAV (n : Option Nat) : Option Chunk × List Ev :=
  (match n with
   | none => none
   | some c => some { cchunk := some c },
   [Ev.native CFn.mixLoadWAV])

/-- mixer.Chunk.Free: direct native call, no locking at all. -/
def Chunk.Free : List Ev := [Ev.native CFn.mixFreeChunk]

/-- mixer.Chunk.Volume: direct native call, forwards the native result. -/
def Chunk.Volume (n : Int) : Int × List Ev :=
  (n, [Ev.native CFn.mixVolumeChunk])

/-- mixer.Chunk.PlayChannelTimed: direct native call, forwards the result. -/
def Chunk.PlayChannelTimed (n : Int) : Int × List Ev :=
  (n, [Ev.native CFn.mixPlayChannelTimed])

/-- mixer.Chunk.PlayChannel: PlayChannelTimed with ticks = -1. -/
def Chunk.PlayChannel (n : Int) : Int × List Ev := Chunk.PlayChannelTimed n

/-- mixer.Chunk.FadeInChannelTimed: direct native call, forwards result. -/
def Chunk.FadeInChannelTimed (n : Int) : Int × List Ev :=
  (n, [Ev.native CFn.mixFadeInChannelTimed])

/-- mixer.Chunk.FadeInChannel: FadeInChannelTimed with ticks = -1. -/
def Chunk.FadeInChannel (n : Int) : Int × List Ev := Chunk.FadeInChannelTimed n

/-- mixer.GetChunk: nil in, nil out, otherwise a Chunk around the handle;
no locking at all. -/
def GetChunk (n : Option Nat) : Option Chunk × List Ev :=
  (match n with
   | none => none
   | some c => some { cchunk := some c },
   [Ev.native CFn.mixGetChunk])

/-- Package-level mutable state of package sdl touched by the modelled
operations: the Go Surface structs, addressed by surface identity, and the
currentVideoSurface pointer (`none` = nil, `some sid` = the surface `sid`). -/
structure SdlState where
  surfaces : Nat → Surface
  currentVideoSurface : Option Nat

/-- sdl.GetVideoSurface: returns the currentVideoSurface pointer under the
global mutex. -/
def GetVideoSurface (st : SdlState) : Option Nat × List Ev :=
  (st.currentVideoSurface, [Ev.lockG, Ev.unlockG])

/-- sdl.Quit: under the global mutex, destroy the current video surface if
there is one and clear the pointer, then SDL_Quit. -/
def Quit (st : SdlState) : SdlState × List Ev :=
  (match st.currentVideoSurface with
   | some sid =>
     { surfaces := fun i => if i = sid then (st.surfaces i).destroy
                            else st.surfaces i,
       currentVideoSurface := none }
   | none => st,
   lockedTrace CFn.sdlQuit)

/-- sdl.Surface.Free on the surface with identity `sid`: under the global
mutex and the surface's own mutex, SDL_FreeSurface, then destroy the Go
struct's fields, then clear currentVideoSurface if it pointed to this
surface. -/
def Surface.Free (st : SdlState) (sid : Nat) : SdlState × List Ev :=
  ({ surfaces := fun i => if i = sid then (st.surfaces i).destroy
                          else st.surfaces i,
     currentVideoSurface :=
       if st.currentVideoSurface = some sid then none
       else st.currentVideoSurface },
   [Ev.lockG, Ev.wlockS sid, Ev.native CFn.sdlFreeSurface, Ev.wunlockS sid,
    Ev.unlockG])

/-- Store an optionally created surface at identity `sid` (a fresh address
chosen by the allocator); a nil wrapper allocates nothing. -/
def storeSurface (f : Nat → Surface) (sid : Nat) (o : Option Surface) :
    Nat → Surface :=
  match o with
  | some s => fun i => if i = sid then s else f i
  | none => f

/-- Surface of a successful CreateRGBSurfaceFrom, if any. -/
def okSurface (r : Except GoPanic (Option Surface)) : Option Surface :=
  match r with
  | Except.ok s => s
  | Except.error _ => none

/-- One operation of the binding, as far as the package-level state is
concerned.  Operations of the binding not listed here (renderer, texture,
window, key/mouse/joystick, time and mixer operations, Init and the error
functions) neither read nor write currentVideoSurface or any Surface struct
in the source, and are represented by `other`. -/
inductive Op where
  | quit
  | free (sid : Nat)
  | load (sid : Nat) (n : Option (Nat × CSurfaceData))
  | createRGBSurface (sid : Nat) (n : Option (Nat × CSurfaceData))
  | createRGBSurfaceFrom (sid : Nat) (px : GoValue)
      (n : Option (Nat × CSurfaceData))
  | setCSurface (sid : Nat) (c : Nat × CSurfaceData)
  | blit (dst src : Nat)
  | getVideoSurface
  | surfaceMisc (sid : Nat)
  | other

/-- Effect of one operation on the package-level state.  Blit, the per-surface
operations and GetVideoSurface only read it. -/
def step (st : SdlState) (op : Op) : SdlState :=
  match op with
  | Op.quit => (Quit st).1
  | Op.free sid => (Surface.Free st sid).1
  | Op.load sid n =>
    { st with surfaces := storeSurface st.surfaces sid (Load n).1 }
  | Op.createRGBSurface sid n =>
    { st with surfaces := storeSurface st.surfaces sid (CreateRGBSurface n).1 }
  | Op.createRGBSurfaceFrom sid px n =>
    { st with surfaces :=
        storeSurface st.surfaces sid (okSurface (CreateRGBSurfaceFrom px n).1) }
  | Op.setCSurface sid c =>
    { st with surfaces := fun i => if i = sid then (st.surfaces i).SetCSurface c
                                   else st.surfaces i }
  | Op.blit _ _ => st
  | Op.getVideoSurface => st
  | Op.surfaceMisc _ => st
  | Op.other => st

/-- The initial package-level state: currentVideoSurface is initialised to
nil and no surface has been created. -/
def initState : SdlState :=
  { surfaces := fun _ => emptySurface, currentVideoSurface := none }

/-- State after running a sequence of binding operations from the initial
state. -/
def run (ops : List Op) : SdlState := ops.foldl step initState

/-- Modelled from the spec: the background event-collector goroutine and the
`Events` channel are in a repository file that is not under src/ (only the
`Event.poll` wrapper is provided).  Per the spec, one polling thread drains
the native event queue and republishes each event on a concurrency-safe
channel for consumers.  `nativeQueue` is the native queue (front = next event
to be polled), `channel` the events delivered so far, oldest first. -/
structure EventSys where
  nativeQueue : List Nat
  channel : List Nat
deriving DecidableEq

/-- Modelled from the spec: one iteration of the collector — poll the native
queue and, if an event was pending, publish it on the channel. -/
def pollOnce (s : EventSys) : EventSys :=
  match s.nativeQueue with
  | [] => s
  | e :: rest => { nativeQueue := rest, channel := s.channel ++ [e] }

/-- Modelled from the spec: the collector loop, run for `n` iterations. -/
def collector : Nat → EventSys → EventSys
  | 0, s => s
  | Nat.succ k, s => collector k (pollOnce s)

/-- Traces of the operations of the binding that wrap their native call in
GlobalMutex.Lock/Unlock.  For operations whose trace does not depend on their
arguments the trace is instantiated at an arbitrary oracle value.  Init,
InitSubSystem, Quit, Surface.Free and Surface.Blit have argument-dependent
traces and are treated separately. -/
def guardedTraces : List (List Ev) :=
  [(CreateRenderer none).2, Renderer.Clear, Renderer.Copy, Renderer.Present,
   Renderer.SetDrawColor, Renderer.FillRect, Renderer.Destroy,
   (CreateTextureFromSurface none).2, Texture.Destroy,
   QuitSubSystem, (WasInit 0).2, (NumDisplayModes 0).2, (GetError 0).2,
   ClearError,
   (CreateWindow none).2, (Window.GetTitle 0).2, Window.SetTitle,
   Window.SetIcon, Window.Destroy, Window.GL_SwapWindow,
   (GL_SetAttribute 0).2,
   (Load none).2, (CreateRGBSurface none).2,
   (GetKeyName 0).2, (Event.poll 0).2, (GetMouseState 0).2,
   (GetRelativeMouseState 0).2, (ShowCursor 0).2,
   (NumJoysticks 0).2, (JoystickOpen none).2, JoystickUpdate,
   (JoystickEventState 0).2, Joystick.Close, (GetTicks 0).2]

/-- Traces of the operations of the binding that enter the native library
with no lock held at all: the pixel-format helpers, the per-joystick query
methods, and every operation of package mixer. -/
def unguardedNativeTraces : List (List Ev) :=
  [(MapRGBA 0).2, GetRGBA,
   (Joystick.NumAxes 0).2, (Joystick.NumButtons 0).2,
   (Joystick.NumBalls 0).2, (Joystick.NumHats 0).2,
   (Joystick.GetHat 0).2, (Joystick.GetButton 0).2,
   (Joystick.GetBall 0).2, (Joystick.GetAxis 0).2,
   (LoadWAV none).2, Chunk.Free, (Chunk.Volume 0).2,
   (Chunk.PlayChannelTimed 0).2, (Chunk.FadeInChannelTimed 0).2,
   (GetChunk none).2]

/-- Helper: GlobalMutex is held during the native blit of Surface.Blit
exactly when the source or the destination is the current video surface. -/
theorem blit_guard_eq (dst src : Nat) (cvs : Option Nat) (n : Int) :
    nativeCallsGuarded (Surface.Blit dst src cvs n).2
      = (cvs == some src || cvs == some dst) := by
  by_cases h1 : cvs = some src
  · subst h1
    simp [Surface.Blit, nativeCallsGuarded, guardedFrom]
  · by_cases h2 : cvs = some dst
    · subst h2
      simp [Surface.Blit, nativeCallsGuarded, guardedFrom, h1]
    · simp [Surface.Blit, nativeCallsGuarded, guardedFrom, h1, h2]

/-- Claim C1 (counterexample): Joystick.NumAxes and Chunk.PlayChannelTimed
each enter the native library exactly once, with GlobalMutex never
acquired — so not every exported operation serializes its native call behind
the global lock. -/
theorem joystick_and_mixer_calls_bypass_global_mutex :
    nativeCallsGuarded (Joystick.NumAxes 2).2 = false ∧
    countNative (Joystick.NumAxes 2).2 = 1 ∧
    usesGlobal (Joystick.NumAxes 2).2 = false ∧
    nativeCallsGuarded (Chunk.PlayChannelTimed 0).2 = false ∧
    countNative (Chunk.PlayChannelTimed 0).2 = 1 ∧
    usesGlobal (Chunk.PlayChannelTimed 0).2 = false := by decide

/-- Claim C1 (amended): the exported operations other than the per-joystick
query methods, MapRGBA/GetRGBA, the mixer operations and the per-surface
operations acquire GlobalMutex around every native call; those exceptions
enter the native library without it, and Surface.Blit holds it during the
native blit exactly when source or destination is the current video
surface. -/
theorem global_mutex_guarding_amended :
    (guardedTraces.all nativeCallsGuarded = true)
  ∧ (∀ flags env st1 st2,
      nativeCallsGuarded (Init flags env st1 st2).2.2 = true)
  ∧ (∀ flags env st1 st2,
      nativeCallsGuarded (InitSubSystem flags env st1 st2).2.2 = true)
  ∧ (∀ st, nativeCallsGuarded (Quit st).2 = true)
  ∧ (∀ st sid, nativeCallsGuarded (Surface.Free st sid).2 = true)
  ∧ (unguardedNativeTraces.all (fun tr => !nativeCallsGuarded tr) = true)
  ∧ (∀ sid n, nativeCallsGuarded (Surface.Lock sid n).2 = false)
  ∧ (∀ sid, nativeCallsGuarded (Surface.Unlock sid) = false)
  ∧ (∀ sid n, nativeCallsGuarded (Surface.FillRect sid n).2 = false)
  ∧ (∀ sid n, nativeCallsGuarded (Surface.SetColorKey sid n).2 = false)
  ∧ (∀ sid, nativeCallsGuarded (Surface.GetClipRect sid) = false)
  ∧ (∀ sid, nativeCallsGuarded (Surface.SetClipRect sid) = false)
  ∧ (∀ dst src cvs n, nativeCallsGuarded (Surface.Blit dst src cvs n).2
       = (cvs == some src || cvs == some dst)) := by
  refine ⟨by decide, ?_, ?_, ?_, ?_, by decide, ?_, ?_, ?_, ?_, ?_, ?_, ?_⟩
  · intro flags env st1 st2
    unfold Init
    split
    · split
      · split <;> rfl
      · rfl
    · rfl
  · intro flags env st1 st2
    unfold InitSubSystem
    split
    · split
      · split <;> rfl
      · rfl
    · rfl
  · intro st; rfl
  · intro st sid; rfl
  · intro sid n; rfl
  · intro sid; rfl
  · intro sid n; rfl
  · intro sid n; rfl
  · intro sid; rfl
  · intro sid; rfl
  · exact fun dst src cvs n => blit_guard_eq dst src cvs n

/-- Claim C2 (counterexample): on darwin, with INIT_VIDEO requested,
SDL_VIDEODRIVER unset and the first native SDL_Init failing with -1, the Init
wrapper enters SDL_Init twice and returns the second status 0 — not the
observable effect of calling the native function directly once. -/
theorem Init_retries_native_call_on_darwin :
    countNative (Init 32 ⟨true, DriverVal.empty⟩ (-1) 0).2.2 = 2 ∧
    (Init 32 ⟨true, DriverVal.empty⟩ (-1) 0).1 = 0 := by decide

/-- Claim C2 (amended): every modelled forwarding operation performs exactly
one native call and returns its result unchanged, except Init and
InitSubSystem: on darwin, when the first call fails with INIT_VIDEO requested
and SDL_VIDEODRIVER unset, they set the variable to x11, call the native
function a second time and return the second status. -/
theorem forwarding_single_call_amended :
    (∀ flags env st1 st2,
      (st1 ≠ 0 ∧ env.goosDarwin = true ∧ Nat.land flags INIT_VIDEO ≠ 0) →
      env.videoDriver = DriverVal.empty →
      (Init flags env st1 st2).1 = st2 ∧
      countNative (Init flags env st1 st2).2.2 = 2)
  ∧ (∀ flags env st1 st2,
      ¬((st1 ≠ 0 ∧ env.goosDarwin = true ∧ Nat.land flags INIT_VIDEO ≠ 0) ∧
        env.videoDriver = DriverVal.empty) →
      (Init flags env st1 st2).1 = st1 ∧
      countNative (Init flags env st1 st2).2.2 = 1)
  ∧ (∀ flags env st1 st2,
      ¬((st1 ≠ 0 ∧ env.goosDarwin = true ∧ Nat.land flags INIT_VIDEO ≠ 0) ∧
        env.videoDriver = DriverVal.empty) →
      (InitSubSystem flags env st1 st2).1 = st1 ∧
      countNative (InitSubSystem flags env st1 st2).2.2 = 1)
  ∧ (∀ n, (Chunk.Volume n).1 = n ∧ countNative (Chunk.Volume n).2 = 1)
  ∧ (countNative Renderer.Clear = 1)
  ∧ (∀ n, (WasInit n).1 = n ∧ countNative (WasInit n).2 = 1)
  ∧ (∀ n, (GetError n).1 = n ∧ countNative (GetError n).2 = 1)
  ∧ (∀ n, (GL_SetAttribute n).1 = n ∧ countNative (GL_SetAttribute n).2 = 1)
  ∧ (∀ n, (ShowCursor n).1 = n ∧ countNative (ShowCursor n).2 = 1)
  ∧ (∀ n, (GetTicks n).1 = n ∧ countNative (GetTicks n).2 = 1)
  ∧ (∀ n, (Joystick.NumAxes n).1 = n ∧
      countNative (Joystick.NumAxes n).2 = 1)
  ∧ (∀ n, (Chunk.PlayChannelTimed n).1 = n ∧
      countNative (Chunk.PlayChannelTimed n).2 = 1)
  ∧ (∀ sid n, (Surface.FillRect sid n).1 = n ∧
      countNative (Surface.FillRect sid n).2 = 1)
  ∧ (∀ dst src cvs n, (Surface.Blit dst src cvs n).1 = n ∧
      countNative (Surface.Blit dst src cvs n).2 = 1) := by
  refine ⟨?_, ?_, ?_, fun n => ⟨rfl, rfl⟩, rfl, fun n => ⟨rfl, rfl⟩,
    fun n => ⟨rfl, rfl⟩, fun n => ⟨rfl, rfl⟩, fun n => ⟨rfl, rfl⟩,
    fun n => ⟨rfl, rfl⟩, fun n => ⟨rfl, rfl⟩, fun n => ⟨rfl, rfl⟩,
    fun sid n => ⟨rfl, rfl⟩, ?_⟩
  · intro flags env st1 st2 h1 h2
    simp only [Init, if_pos h1, if_pos h2]
    split <;> refine ⟨?_, ?_⟩ <;> first | rfl | trivial
  · intro flags env st1 st2 h
    by_cases h1 : st1 ≠ 0 ∧ env.goosDarwin = true ∧
        Nat.land flags INIT_VIDEO ≠ 0
    · have h2 : ¬env.videoDriver = DriverVal.empty := fun hv => h ⟨h1, hv⟩
      simp only [Init, if_pos h1, if_neg h2]
      refine ⟨?_, ?_⟩ <;> first | rfl | trivial
    · simp only [Init, if_neg h1]
      refine ⟨?_, ?_⟩ <;> first | rfl | trivial
  · intro flags env st1 st2 h
    by_cases h1 : st1 ≠ 0 ∧ env.goosDarwin = true ∧
        Nat.land flags INIT_VIDEO ≠ 0
    · have h2 : ¬env.videoDriver = DriverVal.empty := fun hv => h ⟨h1, hv⟩
      simp only [InitSubSystem, if_pos h1, if_neg h2]
      refine ⟨?_, ?_⟩ <;> first | rfl | trivial
    · simp only [InitSubSystem, if_neg h1]
      refine ⟨?_, ?_⟩ <;> first | rfl | trivial
  · intro dst src cvs n
    unfold Surface.Blit
    split <;> exact ⟨rfl, rfl⟩

/-- Witness for the amended C2 theorem: both Init paths and a plain
forwarding operation, at concrete inputs. -/
theorem forwarding_single_call_amended_witness :
    (Init 32 ⟨true, DriverVal.empty⟩ (-1) 0).1 = 0 ∧
    (Init 0 ⟨false, DriverVal.empty⟩ 5 7).1 = 5 ∧
    (Chunk.Volume 3).1 = 3 :=
  ⟨(forwarding_single_call_amended.1 32 ⟨true, DriverVal.empty⟩ (-1) 0
      (by decide) (by decide)).1,
   (forwarding_single_call_amended.2.1 0 ⟨false, DriverVal.empty⟩ 5 7
      (by decide)).1,
   (forwarding_single_call_amended.2.2.2.1 3).1⟩

/-- Claim C3 (counterexample): on darwin, with INIT_VIDEO requested,
SDL_VIDEODRIVER unset and both native SDL_Init calls failing, the Init
wrapper mutates the process environment twice, retries the native call, and
returns the status of the second call rather than the first. -/
theorem Init_modifies_environment_on_failure :
    countSetenv (Init 32 ⟨true, DriverVal.empty⟩ (-1) (-2)).2.2 = 2 ∧
    countNative (Init 32 ⟨true, DriverVal.empty⟩ (-1) (-2)).2.2 = 2 ∧
    (Init 32 ⟨true, DriverVal.empty⟩ (-1) (-2)).1 = -2 := by decide

/-- Claim C3 (amended): every modelled operation forwards the native
status/error unchanged with no recovery logic and no environment changes,
except Init and InitSubSystem: on darwin, when the first call fails with
INIT_VIDEO requested and SDL_VIDEODRIVER unset, they set SDL_VIDEODRIVER to
x11, retry the native call once and return the retry's status (restoring the
variable if the retry also fails). -/
theorem error_forwarding_amended :
    (∀ e, (GetError e).1 = e)
  ∧ (guardedTraces.all (fun tr => countSetenv tr == 0) = true)
  ∧ (unguardedNativeTraces.all (fun tr => countSetenv tr == 0) = true)
  ∧ (∀ st, countSetenv (Quit st).2 = 0)
  ∧ (∀ st sid, countSetenv (Surface.Free st sid).2 = 0)
  ∧ (∀ sid n, countSetenv (Surface.FillRect sid n).2 = 0)
  ∧ (∀ dst src cvs n, countSetenv (Surface.Blit dst src cvs n).2 = 0)
  ∧ (∀ flags env st1 st2,
      ¬((st1 ≠ 0 ∧ env.goosDarwin = true ∧ Nat.land flags INIT_VIDEO ≠ 0) ∧
        env.videoDriver = DriverVal.empty) →
      countSetenv (Init flags env st1 st2).2.2 = 0 ∧
      (Init flags env st1 st2).1 = st1 ∧
      (Init flags env st1 st2).2.1 = env)
  ∧ (∀ flags env st1 st2,
      (st1 ≠ 0 ∧ env.goosDarwin = true ∧ Nat.land flags INIT_VIDEO ≠ 0) →
      env.videoDriver = DriverVal.empty →
      Ev.setenvX11 ∈ (Init flags env st1 st2).2.2 ∧
      countNative (Init flags env st1 st2).2.2 = 2 ∧
      (Init flags env st1 st2).1 = st2)
  ∧ (∀ flags env st1 st2,
      ¬((st1 ≠ 0 ∧ env.goosDarwin = true ∧ Nat.land flags INIT_VIDEO ≠ 0) ∧
        env.videoDriver = DriverVal.empty) →
      countSetenv (InitSubSystem flags env st1 st2).2.2 = 0 ∧
      (InitSubSystem flags env st1 st2).1 = st1) := by
  refine ⟨fun e => rfl, by decide, by decide, fun st => rfl,
    fun st sid => rfl, fun sid n => rfl, ?_, ?_, ?_, ?_⟩
  · intro dst src cvs n
    unfold Surface.Blit
    split <;> rfl
  · intro flags env st1 st2 h
    by_cases h1 : st1 ≠ 0 ∧ env.goosDarwin = true ∧
        Nat.land flags INIT_VIDEO ≠ 0
    · have h2 : ¬env.videoDriver = DriverVal.empty := fun hv => h ⟨h1, hv⟩
      simp only [Init, if_pos h1, if_neg h2]
      refine ⟨?_, ?_, ?_⟩ <;> first | rfl | trivial
    · simp only [Init, if_neg h1]
      refine ⟨?_, ?_, ?_⟩ <;> first | rfl | trivial
  · intro flags env st1 st2 h1 h2
    simp only [Init, if_pos h1, if_pos h2]
    split
    · refine ⟨?_, ?_, ?_⟩ <;> first | rfl | trivial | simp
    · refine ⟨?_, ?_, ?_⟩ <;> first | rfl | trivial | simp
  · intro flags env st1 st2 h
    by_cases h1 : st1 ≠ 0 ∧ env.goosDarwin = true ∧
        Nat.land flags INIT_VIDEO ≠ 0
    · have h2 : ¬env.videoDriver = DriverVal.empty := fun hv => h ⟨h1, hv⟩
      simp only [InitSubSystem, if_pos h1, if_neg h2]
      refine ⟨?_, ?_⟩ <;> first | rfl | trivial
    · simp only [InitSubSystem, if_neg h1]
      refine ⟨?_, ?_⟩ <;> first | rfl | trivial

/-- Witness for the amended C3 theorem: the no-recovery path and the darwin
retry path of Init, at concrete inputs. -/
theorem error_forwarding_amended_witness :
    (Init 0 ⟨false, DriverVal.empty⟩ 5 7).1 = 5 ∧
    Ev.setenvX11 ∈ (Init 32 ⟨true, DriverVal.empty⟩ (-1) (-2)).2.2 ∧
    (GetError 4).1 = 4 :=
  ⟨(error_forwarding_amended.2.2.2.2.2.2.2.1 0 ⟨false, DriverVal.empty⟩ 5 7
      (by decide)).2.1,
   (error_forwarding_amended.2.2.2.2.2.2.2.2.1 32 ⟨true, DriverVal.empty⟩
      (-1) (-2) (by decide) (by decide)).1,
   error_forwarding_amended.1 4⟩

/-- Claim C4 (confirmed): Surface.FillRect, SetColorKey, SetClipRect,
GetClipRect, Lock and Unlock take only the lock of the one surface they
operate on and never touch GlobalMutex — so operations on distinct surfaces
contend on no common lock — and Surface.Blit holds the global mutex during
the native blit exactly when its source or destination is the current video
surface. -/
theorem surface_ops_per_surface_lock_only :
    (∀ sid n, locksOnly sid (Surface.FillRect sid n).2 = true)
  ∧ (∀ sid n, locksOnly sid (Surface.SetColorKey sid n).2 = true)
  ∧ (∀ sid, locksOnly sid (Surface.SetClipRect sid) = true)
  ∧ (∀ sid, locksOnly sid (Surface.GetClipRect sid) = true)
  ∧ (∀ sid n, locksOnly sid (Surface.Lock sid n).2 = true)
  ∧ (∀ sid, locksOnly sid (Surface.Unlock sid) = true)
  ∧ (∀ sid n, usesGlobal (Surface.FillRect sid n).2 = false)
  ∧ (∀ dst src cvs n, nativeCallsGuarded (Surface.Blit dst src cvs n).2
       = (cvs == some src || cvs == some dst)) := by
  refine ⟨?_, ?_, ?_, ?_, ?_, ?_, fun sid n => rfl,
    fun dst src cvs n => blit_guard_eq dst src cvs n⟩
  · intro sid n; simp [locksOnly, Surface.FillRect]
  · intro sid n; simp [locksOnly, Surface.SetColorKey]
  · intro sid; simp [locksOnly, Surface.SetClipRect]
  · intro sid; simp [locksOnly, Surface.GetClipRect]
  · intro sid n; simp [locksOnly, Surface.Lock]
  · intro sid; simp [locksOnly, Surface.Unlock]

/-- Claim C5 (confirmed): each handle-creating wrapper returns nil exactly
when the native call returned NULL, and otherwise a wrapper holding exactly
the native handle; GetError forwards the native error string unchanged, and
the wrappers expose no other failure channel. -/
theorem constructors_nil_iff_native_null :
    (∀ n, ((CreateWindow n).1 = none ↔ n = none))
  ∧ (∀ c, ∃ w, (CreateWindow (some c)).1 = some w ∧ w.cWindow = some c)
  ∧ (∀ n, ((CreateRenderer n).1 = none ↔ n = none))
  ∧ (∀ c, ∃ r, (CreateRenderer (some c)).1 = some r ∧ r.cRenderer = some c)
  ∧ (∀ n, ((CreateTextureFromSurface n).1 = none ↔ n = none))
  ∧ (∀ c, ∃ t, (CreateTextureFromSurface (some c)).1 = some t ∧
      t.cTexture = some c)
  ∧ (∀ n, ((CreateRGBSurface n).1 = none ↔ n = none))
  ∧ (∀ c, ∃ s, (CreateRGBSurface (some c)).1 = some s ∧
      s.cSurface = some c.1)
  ∧ (∀ n, ((Load n).1 = none ↔ n = none))
  ∧ (∀ c, ∃ s, (Load (some c)).1 = some s ∧ s.cSurface = some c.1)
  ∧ (∀ n, ((JoystickOpen n).1 = none ↔ n = none))
  ∧ (∀ c, ∃ j, (JoystickOpen (some c)).1 = some j ∧ j.cJoystick = some c)
  ∧ (∀ n, ((LoadWAV n).1 = none ↔ n = none))
  ∧ (∀ c, ∃ k, (LoadWAV (some c)).1 = some k ∧ k.cchunk = some c)
  ∧ (∀ n, ((GetChunk n).1 = none ↔ n = none))
  ∧ (∀ c, ∃ k, (GetChunk (some c)).1 = some k ∧ k.cchunk = some c)
  ∧ (∀ e, (GetError e).1 = e) := by
  refine ⟨?_, fun c => ⟨_, rfl, rfl⟩, ?_, fun c => ⟨_, rfl, rfl⟩,
    ?_, fun c => ⟨_, rfl, rfl⟩, ?_, fun c => ⟨_, rfl, rfl⟩,
    ?_, fun c => ⟨_, rfl, rfl⟩, ?_, fun c => ⟨_, rfl, rfl⟩,
    ?_, fun c => ⟨_, rfl, rfl⟩, ?_, fun c => ⟨_, rfl, rfl⟩, fun e => rfl⟩
  · intro n; cases n <;> simp [CreateWindow, wrapWindow]
  · intro n; cases n <;> simp [CreateRenderer, wrapRenderer]
  · intro n; cases n <;> simp [CreateTextureFromSurface, wrapTexture]
  · intro n; cases n <;> simp [CreateRGBSurface, wrapSurface]
  · intro n; cases n <;> simp [Load, wrapSurface]
  · intro n; cases n <;> simp [JoystickOpen, wrapJoystick]
  · intro n; cases n <;> simp [LoadWAV]
  · intro n; cases n <;> simp [GetChunk]

/-- Helper: after `n` collector iterations the channel has grown by exactly
the first `n` events of the native queue, in order. -/
theorem collector_channel (n : Nat) :
    ∀ q c, (collector n ⟨q, c⟩).channel = c ++ q.take n := by
  induction n with
  | zero => intro q c; simp [collector]
  | succ k ih =>
    intro q c
    cases q with
    | nil => simp [collector, pollOnce, ih]
    | cons e rest => simp [collector, pollOnce, ih]

/-- Claim C6 (confirmed against the spec model): draining the whole native
queue through the single-threaded collector delivers on the channel exactly
the native queue, in poll order — so any event polled earlier is delivered
earlier. -/
theorem events_delivered_in_poll_order (q : List Nat) :
    (collector q.length ⟨q, []⟩).channel = q := by
  simp [collector_channel]

/-- Claim C7 (confirmed): after Surface.Free the freed surface's native
handle, Format, Pixels and gcPixels fields are all nil, and when the freed
surface was the current video surface the pointer is cleared, so
GetVideoSurface then returns nil. -/
theorem surface_free_clears_fields_and_video_surface :
    (∀ st sid, ((Surface.Free st sid).1.surfaces sid).cSurface = none
      ∧ ((Surface.Free st sid).1.surfaces sid).Format = none
      ∧ ((Surface.Free st sid).1.surfaces sid).Pixels = none
      ∧ ((Surface.Free st sid).1.surfaces sid).gcPixels = none)
  ∧ (∀ (st : SdlState) (sid : Nat),
      (Surface.Free { st with currentVideoSurface := some sid }
        sid).1.currentVideoSurface = none)
  ∧ (∀ (st : SdlState) (sid : Nat),
      (GetVideoSurface (Surface.Free
        { st with currentVideoSurface := some sid } sid).1).1 = none) := by
  refine ⟨?_, ?_, ?_⟩
  · intro st sid
    refine ⟨?_, ?_, ?_, ?_⟩ <;> simp [Surface.Free, Surface.destroy]
  · intro st sid; simp [Surface.Free]
  · intro st sid; simp [GetVideoSurface, Surface.Free]

/-- Helper: no single operation writes a non-nil value into
currentVideoSurface. -/
theorem step_cvs_none (st : SdlState) (op : Op)
    (h : st.currentVideoSurface = none) :
    (step st op).currentVideoSurface = none := by
  cases op with
  | quit => simp [step, Quit, h]
  | free sid => simp [step, Surface.Free, h]
  | load sid n => simpa [step] using h
  | createRGBSurface sid n => simpa [step] using h
  | createRGBSurfaceFrom sid px n => simpa [step] using h
  | setCSurface sid c => simpa [step] using h
  | blit dst src => simpa [step] using h
  | getVideoSurface => simpa [step] using h
  | surfaceMisc sid => simpa [step] using h
  | other => simpa [step] using h

/-- Helper: running any operation sequence from a state with nil
currentVideoSurface keeps it nil. -/
theorem foldl_cvs_none :
    ∀ (ops : List Op) (st : SdlState), st.currentVideoSurface = none →
      (ops.foldl step st).currentVideoSurface = none := by
  intro ops
  induction ops with
  | nil => intro st h; simpa using h
  | cons op rest ih => intro st h; exact ih _ (step_cvs_none st op h)

/-- Claim C8 (confirmed): after any sequence of binding operations the
currentVideoSurface pointer is still nil — no operation assigns it a non-nil
value — so GetVideoSurface returns nil and the Surface.Blit branch that keeps
GlobalMutex held across the native blit is never taken. -/
theorem currentVideoSurface_always_nil (ops : List Op) :
    (run ops).currentVideoSurface = none
  ∧ (GetVideoSurface (run ops)).1 = none
  ∧ (∀ dst src n, nativeCallsGuarded
      (Surface.Blit dst src (run ops).currentVideoSurface n).2 = false) := by
  have h : (run ops).currentVideoSurface = none :=
    foldl_cvs_none ops initState rfl
  refine ⟨h, ?_, ?_⟩
  · simpa [GetVideoSurface] using h
  · intro dst src n
    rw [h]
    rfl

/-- Claim C9 (confirmed): CreateWindowAndRenderer evaluates `&win.cWindow`
and `&rend.cRenderer` on the nil pointers it just declared, so every call
panics with a nil dereference before any native call is made; it can never
return a window or renderer. -/
theorem createWindowAndRenderer_always_panics (h w : Int) (flags : Nat) :
    (CreateWindowAndRenderer h w flags).1 = Except.error GoPanic.nilDeref ∧
    countNative (CreateWindowAndRenderer h w flags).2 = 0 := ⟨rfl, rfl⟩

/-- Claim C10 (confirmed): CreateRGBSurfaceFrom panics on every pixels value
whose reflect kind is not pointer, unsafe pointer or slice; with an accepted
kind it panics with a nil dereference whenever the native call returns NULL;
it never returns nil; and on success the returned surface's gcPixels field
retains the pixels argument (preventing its garbage collection) while
cSurface holds exactly the native handle. -/
theorem createRGBSurfaceFrom_panic_behavior :
    (∀ a n, (CreateRGBSurfaceFrom ⟨GoKind.intKind, a⟩ n).1
      = Except.error GoPanic.badKind)
  ∧ (∀ a n, (CreateRGBSurfaceFrom ⟨GoKind.boolKind, a⟩ n).1
      = Except.error GoPanic.badKind)
  ∧ (∀ a n, (CreateRGBSurfaceFrom ⟨GoKind.structKind, a⟩ n).1
      = Except.error GoPanic.badKind)
  ∧ (∀ a n, (CreateRGBSurfaceFrom ⟨GoKind.chanKind, a⟩ n).1
      = Except.error GoPanic.badKind)
  ∧ (∀ a, (CreateRGBSurfaceFrom ⟨GoKind.ptr, a⟩ none).1
      = Except.error GoPanic.nilDeref)
  ∧ (∀ a, (CreateRGBSurfaceFrom ⟨GoKind.uptr, a⟩ none).1
      = Except.error GoPanic.nilDeref)
  ∧ (∀ a, (CreateRGBSurfaceFrom ⟨GoKind.slice, a⟩ none).1
      = Except.error GoPanic.nilDeref)
  ∧ (∀ px n, (CreateRGBSurfaceFrom px n).1 ≠ Except.ok none)
  ∧ (∀ a c, ∃ s, (CreateRGBSurfaceFrom ⟨GoKind.ptr, a⟩ (some c)).1
      = Except.ok (some s) ∧ s.gcPixels = some ⟨GoKind.ptr, a⟩ ∧
      s.cSurface = some c.1)
  ∧ (∀ a c, ∃ s, (CreateRGBSurfaceFrom ⟨GoKind.uptr, a⟩ (some c)).1
      = Except.ok (some s) ∧ s.gcPixels = some ⟨GoKind.uptr, a⟩ ∧
      s.cSurface = some c.1)
  ∧ (∀ a c, ∃ s, (CreateRGBSurfaceFrom ⟨GoKind.slice, a⟩ (some c)).1
      = Except.ok (some s) ∧ s.gcPixels = some ⟨GoKind.slice, a⟩ ∧
      s.cSurface = some c.1) := by
  refine ⟨fun a n => rfl, fun a n => rfl, fun a n => rfl, fun a n => rfl,
    fun a => rfl, fun a => rfl, fun a => rfl, ?_,
    fun a c => ⟨_, rfl, rfl, rfl⟩, fun a c => ⟨_, rfl, rfl, rfl⟩,
    fun a c => ⟨_, rfl, rfl, rfl⟩⟩
  · intro px n
    cases px with
    | mk kind addr =>
      cases kind <;> cases n <;>
        simp [CreateRGBSurfaceFrom, wrapSurface]

/-- Witness for the C10 theorem at concrete inputs: a rejected kind panics,
and an accepted kind with a NULL native result does not return nil. -/
theorem createRGBSurfaceFrom_panic_behavior_witness :
    (CreateRGBSurfaceFrom ⟨GoKind.intKind, 0⟩ none).1
      = Except.error GoPanic.badKind ∧
    (CreateRGBSurfaceFrom ⟨GoKind.ptr, 0⟩ none).1 ≠ Except.ok none :=
  ⟨createRGBSurfaceFrom_panic_behavior.1 0 none,
   createRGBSurfaceFrom_panic_behavior.2.2.2.2.2.2.2.1 ⟨GoKind.ptr, 0⟩ none⟩

end GoSDL
